import Mathlib

/-!
Shallow embedding of the "Keep Notes" frontend (React/TypeScript):
  * `src/services/api.ts`        — the fetch-based API client,
  * `src/App.tsx`                — the AuthProvider (initAuth / login / signup / logout),
  * `src/components/HomePage.tsx` — the notes page (fetchNotes, save, delete flows).

Modelling conventions:
  * `localStorage` is a `Storage` record with the two keys the app uses
    (`token`, `user`); each `setItem`/`removeItem` is a primitive step, and
    operations thread a `StoreM` that journals the storage state after every
    mutation, so "at no observable point" claims can quantify over the journal.
  * Backend responses are `Response α` values fixed up-front in a backend
    record; a rejected `response.json()` on the error path and the shape of the
    `detail` field are captured by `ErrBody`. A network-level failure follows
    the same thrown-error control path as a non-2xx response, so it is
    represented by `ok := false` as well.
  * Date strings (`last_update`, `created_on`) are integer timestamps, the
    value of `new Date(x).getTime()`; `new Date(x).toISOString()` is then the
    identity on this representation.
  * JavaScript's `Array.prototype.sort` (stable per ES2019) with the comparator
    `(a, b) => b.last_update - a.last_update` is embedded as the stable
    insertion sort `jsSortNotes`.
  * `window.confirm` answers and `alert` notices are explicit booleans / output
    lists; every `fetch` issued is recorded as a `Request`.
-/

namespace NotesApp

/-- Frontend `User` type from `src/types.ts`. -/
structure User where
  id : String
  username : String
  email : String
  deriving Repr, DecidableEq

/-- Frontend `Note` type from `src/types.ts`; dates are integer timestamps. -/
structure Note where
  id : String
  userId : String
  title : String
  content : String
  last_update : Int
  created_on : Int
  deriving Repr, DecidableEq

/-- Shape of the response body as seen by the error path of `handleResponse`:
`unparseable` means `response.json()` rejected (body absent or not JSON);
`parsed d` means it resolved to an object whose `detail` field is `d`
(`none` when the field is missing). -/
inductive ErrBody where
  | unparseable
  | parsed (detail : Option String)
  deriving Repr, DecidableEq

/-- An HTTP response as the client observes it: `ok` is `response.ok`
(true exactly for 2xx), `status` the numeric code, `errBody` what the error
path would read from the body, `data` the parsed payload (meaningful only
when `ok`; the 204 No-Content early return of `handleResponse` is covered by
instantiating `α := Unit` for DELETE). -/
structure Response (α : Type) where
  ok : Bool
  status : Nat
  errBody : ErrBody
  data : α
  deriving Repr, DecidableEq

/-- The message of the `Error` thrown by `handleResponse` on a non-ok
response: `errorData.detail || \x60HTTP error! status: ...\x60`, where a
rejected `json()` was replaced by `\x7b detail: 'An unknown error occurred.' \x7d`
and a falsy (empty) `detail` also falls through to the generic message. -/
def errorMessage (status : Nat) : ErrBody → String
  | .unparseable => "An unknown error occurred."
  | .parsed none => "HTTP error! status: " ++ toString status
  | .parsed (some d) =>
      if d = "" then "HTTP error! status: " ++ toString status else d

/-- `handleResponse` from `src/services/api.ts`: throw on non-ok, otherwise
return the parsed body. -/
def handleResponse (r : Response α) : Except String α :=
  if r.ok then Except.ok r.data else Except.error (errorMessage r.status r.errBody)

/-- The two `localStorage` keys the app uses. -/
structure Storage where
  token : Option String
  user : Option String
  deriving Repr, DecidableEq

/-- `getAuthHeaders` from `src/services/api.ts`: empty header object when no
token is stored, otherwise a single bearer header. -/
def getAuthHeaders (s : Storage) : List (String × String) :=
  match s.token with
  | none => []
  | some t => [("Authorization", "Bearer " ++ t)]

/-- One `fetch` call as issued by the client. -/
structure Request where
  method : String
  url : String
  headers : List (String × String)
  deriving Repr, DecidableEq

/-- `localStorage` together with a journal of every state reached after a
mutation, oldest first. -/
structure StoreM where
  store : Storage
  journal : List Storage
  deriving Repr, DecidableEq

/-- `localStorage.setItem('token', v)`. -/
def StoreM.setTokenItem (m : StoreM) (v : String) : StoreM :=
  let s := { m.store with token := some v }
  ⟨s, m.journal ++ [s]⟩

/-- `localStorage.setItem('user', v)`. -/
def StoreM.setUserItem (m : StoreM) (v : String) : StoreM :=
  let s := { m.store with user := some v }
  ⟨s, m.journal ++ [s]⟩

/-- `localStorage.removeItem('token')`. -/
def StoreM.removeTokenItem (m : StoreM) : StoreM :=
  let s := { m.store with token := none }
  ⟨s, m.journal ++ [s]⟩

/-- `localStorage.removeItem('user')`. -/
def StoreM.removeUserItem (m : StoreM) : StoreM :=
  let s := { m.store with user := none }
  ⟨s, m.journal ++ [s]⟩

/-- Parsed body of a successful `/login` response. -/
structure TokenPayload where
  access_token : String
  deriving Repr, DecidableEq

/-- The backend responses the auth endpoints will produce in a given run. -/
structure AuthBackend where
  signupResp : Response Unit
  loginResp : Response TokenPayload
  meResp : Response User
  deriving Repr, DecidableEq

/-- `JSON.stringify(user)` (field escaping elided). -/
def serializeUser (u : User) : String :=
  "\x7b\"id\":\"" ++ u.id ++ "\",\"username\":\"" ++ u.username ++
    "\",\"email\":\"" ++ u.email ++ "\"\x7d"

/-- `api.getMe`: GET `/users/me` with `getAuthHeaders()`. -/
def apiGetMe (b : AuthBackend) (s : Storage) : Request × Except String User :=
  (⟨"GET", "/users/me", getAuthHeaders s⟩, handleResponse b.meResp)

/-- `api.login`: POST `/login`; on success store the token, then fetch the
user via `api.getMe` and store its serialization. The credentials only feed
the request body, which the claims do not observe. -/
def apiLogin (b : AuthBackend) (m : StoreM) (_email _password : String) :
    List Request × Except String (User × String) × StoreM :=
  let loginReq : Request :=
    ⟨"POST", "/login", [("Content-Type", "application/x-www-form-urlencoded")]⟩
  match handleResponse b.loginResp with
  | .error e => ([loginReq], .error e, m)
  | .ok payload =>
      let token := payload.access_token
      let m1 := m.setTokenItem token
      let (meReq, meRes) := apiGetMe b m1.store
      match meRes with
      | .error e => ([loginReq, meReq], .error e, m1)
      | .ok user =>
          let m2 := m1.setUserItem (serializeUser user)
          ([loginReq, meReq], .ok (user, token), m2)

/-- `api.signup`: POST `/signup`; on success immediately run `api.login`
with the same credentials. -/
def apiSignup (b : AuthBackend) (m : StoreM) (_username email password : String) :
    List Request × Except String (User × String) × StoreM :=
  let signupReq : Request := ⟨"POST", "/signup", [("Content-Type", "application/json")]⟩
  match handleResponse b.signupResp with
  | .error e => ([signupReq], .error e, m)
  | .ok _ =>
      let (reqs, res, m') := apiLogin b m email password
      (signupReq :: reqs, res, m')

/-- In-memory state of the AuthProvider in `src/App.tsx`. -/
structure AuthState where
  user : Option User
  token : Option String
  isLoading : Bool
  deriving Repr, DecidableEq

/-- Result of an AuthProvider operation: requests issued, the propagated
result, the in-memory state and the storage afterwards. -/
structure AuthOut where
  requests : List Request
  result : Except String Unit
  state : AuthState
  storeM : StoreM
  deriving Repr

/-- AuthProvider `login`: call `api.login`; only on success set the in-memory
user and token (a thrown error skips both `setUser` and `setToken`). -/
def authLogin (b : AuthBackend) (st : AuthState) (m : StoreM)
    (email password : String) : AuthOut :=
  match apiLogin b m email password with
  | (reqs, .error e, m') => ⟨reqs, .error e, st, m'⟩
  | (reqs, .ok (u, t), m') =>
      ⟨reqs, .ok (), { st with user := some u, token := some t }, m'⟩

/-- AuthProvider `signup`: call `api.signup`; only on success set the
in-memory user and token. -/
def authSignup (b : AuthBackend) (st : AuthState) (m : StoreM)
    (username email password : String) : AuthOut :=
  match apiSignup b m username email password with
  | (reqs, .error e, m') => ⟨reqs, .error e, st, m'⟩
  | (reqs, .ok (u, t), m') =>
      ⟨reqs, .ok (), { st with user := some u, token := some t }, m'⟩

/-- AuthProvider `logout`: clear the in-memory user and token, then remove
the `user` and (then) the `token` entries from storage. -/
def logout (st : AuthState) (m : StoreM) : AuthState × StoreM :=
  ({ st with user := none, token := none }, m.removeUserItem.removeTokenItem)

/-- AuthProvider `initAuth`: if a token is stored, validate it via
`api.getMe`; on success publish the user and the stored token and persist
the serialized user; on any error remove the `user` and then the `token`
entry. `setIsLoading(false)` runs on every path. -/
def initAuth (b : AuthBackend) (st : AuthState) (m : StoreM) : AuthState × StoreM :=
  match m.store.token with
  | none => ({ st with isLoading := false }, m)
  | some storedToken =>
      match (apiGetMe b m.store).2 with
      | .ok currentUser =>
          ({ st with user := some currentUser, token := some storedToken,
                     isLoading := false },
           m.setUserItem (serializeUser currentUser))
      | .error _ =>
          ({ st with isLoading := false }, m.removeUserItem.removeTokenItem)

/-- The backend responses the notes endpoints will produce in a given run. -/
structure NotesBackend where
  notesResp : Response (List Note)
  createResp : Response Note
  updateResp : Response Note
  deleteResp : Response Unit
  deriving Repr, DecidableEq

/-- The per-note mapping in `api.getNotesForUser`; re-normalising the date
strings through `new Date(...).toISOString()` is the identity on the
timestamp representation. -/
def normalizeNote (n : Note) : Note :=
  { n with last_update := n.last_update, created_on := n.created_on }

/-- `api.getNotesForUser`: GET `/notes` with `getAuthHeaders()`, mapping each
returned note through `normalizeNote`. -/
def apiGetNotesForUser (b : NotesBackend) (s : Storage) :
    Request × Except String (List Note) :=
  (⟨"GET", "/notes", getAuthHeaders s⟩,
   match handleResponse b.notesResp with
   | .ok notesData => .ok (notesData.map normalizeNote)
   | .error e => .error e)

/-- `api.createNote`: POST `/notes` with JSON content type plus auth headers. -/
def apiCreateNote (b : NotesBackend) (s : Storage) (_title _content : String) :
    Request × Except String Note :=
  (⟨"POST", "/notes", ("Content-Type", "application/json") :: getAuthHeaders s⟩,
   handleResponse b.createResp)

/-- `api.updateNote`: PUT `/notes/:id` with JSON content type plus auth headers. -/
def apiUpdateNote (b : NotesBackend) (s : Storage) (noteId : String)
    (_title _content : String) : Request × Except String Note :=
  (⟨"PUT", "/notes/" ++ noteId, ("Content-Type", "application/json") :: getAuthHeaders s⟩,
   handleResponse b.updateResp)

/-- `api.deleteNote`: DELETE `/notes/:id` with auth headers only. -/
def apiDeleteNote (b : NotesBackend) (s : Storage) (noteId : String) :
    Request × Except String Unit :=
  (⟨"DELETE", "/notes/" ++ noteId, getAuthHeaders s⟩, handleResponse b.deleteResp)

/-- One insertion step of the stable sort: `x` goes in front of the first
element it need not come strictly after under the comparator
`(a, b) => b.last_update - a.last_update`. -/
def insertByUpdateDesc (x : Note) : List Note → List Note
  | [] => [x]
  | y :: ys =>
      if y.last_update ≤ x.last_update then x :: y :: ys
      else y :: insertByUpdateDesc x ys

/-- `userNotes.sort((a, b) => new Date(b.last_update).getTime() - new
Date(a.last_update).getTime())` — JavaScript's sort is stable (ES2019), so it
is embedded as a stable insertion sort on the `last_update` key, descending. -/
def jsSortNotes : List Note → List Note
  | [] => []
  | x :: xs => insertByUpdateDesc x (jsSortNotes xs)

/-- In-memory state of the `HomePage` component. -/
structure HomeState where
  notes : List Note
  isLoading : Bool
  error : Option String
  isModalOpen : Bool
  editingNote : Option Note
  deriving Repr, DecidableEq

/-- `fetchNotes` from `HomePage`: a no-op when no authenticated user is
present; otherwise set loading, call `api.getNotesForUser`, publish the
sorted list on success or set the error message on failure, and clear
loading either way. -/
def fetchNotes (b : NotesBackend) (s : Storage) (user : Option User)
    (h : HomeState) : List Request × HomeState :=
  match user with
  | none => ([], h)
  | some _ =>
      let h1 := { h with isLoading := true }
      let (req, res) := apiGetNotesForUser b s
      match res with
      | .ok userNotes =>
          ([req], { h1 with notes := jsSortNotes userNotes, isLoading := false })
      | .error _ =>
          ([req], { h1 with error := some "Failed to fetch notes.", isLoading := false })

/-- `closeModal` from `HomePage`. -/
def closeModal (h : HomeState) : HomeState :=
  { h with isModalOpen := false, editingNote := none }

/-- Observable output of a `HomePage` handler: requests issued, `alert`
notices shown, and the component state afterwards. -/
structure PageOut where
  requests : List Request
  alerts : List String
  state : HomeState
  deriving Repr, DecidableEq

/-- `handleSaveNote` from `HomePage`: guarded on the user; update when a note
is being edited, create otherwise; on success refresh and close the modal; on
failure alert `'Failed to save note.'` and change nothing. -/
def handleSaveNote (b : NotesBackend) (s : Storage) (user : Option User)
    (h : HomeState) (title content : String) : PageOut :=
  match user with
  | none => ⟨[], [], h⟩
  | some u =>
      let (req, res) :=
        match h.editingNote with
        | some editingNote => apiUpdateNote b s editingNote.id title content
        | none => apiCreateNote b s title content
      match res with
      | .ok _ =>
          let (reqs2, h1) := fetchNotes b s (some u) h
          ⟨req :: reqs2, [], closeModal h1⟩
      | .error _ => ⟨[req], ["Failed to save note."], h⟩

/-- `handleDeleteNote` from `HomePage`: guarded on `editingNote`; ask the
second `window.confirm` and stop if declined; otherwise issue the DELETE, and
on success refresh and close the modal, on failure alert and change nothing. -/
def handleDeleteNote (b : NotesBackend) (s : Storage) (user : Option User)
    (h : HomeState) (confirmDelete : Bool) : PageOut :=
  match h.editingNote with
  | none => ⟨[], [], h⟩
  | some editingNote =>
      if confirmDelete then
        let (req, res) := apiDeleteNote b s editingNote.id
        match res with
        | .ok _ =>
            let (reqs2, h1) := fetchNotes b s user h
            ⟨req :: reqs2, [], closeModal h1⟩
        | .error _ => ⟨[req], ["Failed to delete note. Please try again."], h⟩
      else ⟨[], [], h⟩

/-- In-memory state of the `NoteModal` component. -/
structure ModalState where
  title : String
  content : String
  isSaving : Bool
  isDeleting : Bool
  deriving Repr, DecidableEq

/-- `NoteModal.handleSave`: set `isSaving`, run `onSave(title, content)` (the
page's `handleSaveNote`, which never throws), then clear `isSaving`. -/
def modalHandleSave (b : NotesBackend) (s : Storage) (user : Option User)
    (h : HomeState) (m : ModalState) : PageOut × ModalState :=
  let m1 := { m with isSaving := true }
  let out := handleSaveNote b s user h m.title m.content
  (out, { m1 with isSaving := false })

/-- `NoteModal.handleDelete`: `onDelete` is wired only when a note is being
edited; the first `window.confirm` gates the whole flow, then `isDeleting` is
set around the call to the page's `handleDeleteNote` (which asks the second
confirm) and cleared in the `finally`. -/
def modalHandleDelete (b : NotesBackend) (s : Storage) (user : Option User)
    (h : HomeState) (m : ModalState) (confirmModal confirmPage : Bool) :
    PageOut × ModalState :=
  match h.editingNote with
  | none => (⟨[], [], h⟩, m)
  | some _ =>
      if confirmModal then
        let m1 := { m with isDeleting := true }
        let out := handleDeleteNote b s user h confirmPage
        (out, { m1 with isDeleting := false })
      else (⟨[], [], h⟩, m)

/-- Number of DELETE requests in a request log. -/
def deleteRequestCount (reqs : List Request) : Nat :=
  (reqs.filter (fun r => r.method == "DELETE")).length

/-- The persisted-session invariant: a serialized user entry is present only
when a token entry is present (token absent implies user absent). -/
def sessionInvariant (s : Storage) : Prop :=
  s.user.isSome = true → s.token.isSome = true

instance (s : Storage) : Decidable (sessionInvariant s) := by
  unfold sessionInvariant; infer_instance

/-- The published list is sorted by `last_update` descending: every element
is `≥` all later ones. -/
def SortedByUpdateDesc (l : List Note) : Prop :=
  l.Pairwise (fun a b => b.last_update ≤ a.last_update)

/-- Concrete user for evaluating the model on closed inputs. -/
def sampleUser : User := ⟨"u1", "alice", "alice@example.com"⟩

/-- Concrete note (timestamp 5). -/
def noteA : Note := ⟨"a", "u1", "groceries", "milk", 5, 1⟩

/-- Concrete note (timestamp 9). -/
def noteB : Note := ⟨"b", "u1", "ideas", "lean", 9, 2⟩

/-- Concrete note sharing its timestamp with `noteA`, to exercise ties. -/
def noteC : Note := ⟨"c", "u1", "todo", "prove", 5, 3⟩

/-- Auth backend where `/signup` and `/login` succeed but `/users/me` fails. -/
def meFailsAuthBackend : AuthBackend :=
  ⟨⟨true, 200, .parsed none, ()⟩,
   ⟨true, 200, .parsed none, ⟨"tok123"⟩⟩,
   ⟨false, 401, .parsed (some "Could not validate credentials"), sampleUser⟩⟩

/-- Auth backend where the `/login` request itself fails. -/
def loginFailsAuthBackend : AuthBackend :=
  ⟨⟨true, 200, .parsed none, ()⟩,
   ⟨false, 401, .parsed (some "Incorrect email or password"), ⟨"tok123"⟩⟩,
   ⟨true, 200, .parsed none, sampleUser⟩⟩

/-- Notes backend where every endpoint succeeds; the note list contains a tie
on `last_update`. -/
def sampleNotesBackend : NotesBackend :=
  ⟨⟨true, 200, .parsed none, [noteA, noteB, noteC]⟩,
   ⟨true, 200, .parsed none, noteA⟩,
   ⟨true, 200, .parsed none, noteA⟩,
   ⟨true, 204, .parsed none, ()⟩⟩

/-- Notes backend where every endpoint fails. -/
def failingNotesBackend : NotesBackend :=
  ⟨⟨false, 500, .parsed (some "boom"), []⟩,
   ⟨false, 500, .parsed none, noteA⟩,
   ⟨false, 500, .parsed none, noteA⟩,
   ⟨false, 500, .parsed none, ()⟩⟩

/-- Storage with neither entry present. -/
def emptyStorage : Storage := ⟨none, none⟩

/-- Storage with only a token present. -/
def tokenStorage : Storage := ⟨some "tok123", none⟩

/-- A fresh run over the empty storage. -/
def freshStoreM : StoreM := ⟨emptyStorage, []⟩

/-- A fresh run over storage holding a token. -/
def tokenStoreM : StoreM := ⟨tokenStorage, []⟩

/-- The AuthProvider state at startup. -/
def startAuthState : AuthState := ⟨none, none, true⟩

/-- An idle unauthenticated AuthProvider state. -/
def idleAuthState : AuthState := ⟨none, none, false⟩

/-- A `HomePage` state with a note list published and `noteA` being edited. -/
def sampleHome : HomeState := ⟨[noteA], false, none, true, some noteA⟩

/-- An idle modal state holding entered data. -/
def idleModal : ModalState := ⟨"groceries", "milk", false, false⟩

/-- A 404 response whose body cannot be parsed as JSON. -/
def unparseable404 : Response Unit := ⟨false, 404, .unparseable, ()⟩

/-- A 400 response carrying a structured `detail` message. -/
def detail400 : Response Unit := ⟨false, 400, .parsed (some "Email already registered"), ()⟩

theorem mem_insertByUpdateDesc {a x : Note} {l : List Note} :
    a ∈ insertByUpdateDesc x l ↔ a = x ∨ a ∈ l := by
  induction l with
  | nil => simp [insertByUpdateDesc]
  | cons y ys ih =>
      by_cases hc : y.last_update ≤ x.last_update
      · simp [insertByUpdateDesc, hc]
      · simp [insertByUpdateDesc, hc, ih]
        tauto

theorem insertByUpdateDesc_cons (x y : Note) (ys : List Note) :
    insertByUpdateDesc x (y :: ys)
      = if y.last_update ≤ x.last_update then x :: y :: ys
        else y :: insertByUpdateDesc x ys := rfl

theorem sortedDesc_insertByUpdateDesc (x : Note) {l : List Note}
    (h : SortedByUpdateDesc l) : SortedByUpdateDesc (insertByUpdateDesc x l) := by
  induction l with
  | nil => simp [insertByUpdateDesc, SortedByUpdateDesc]
  | cons y ys ih =>
      rcases List.pairwise_cons.mp h with ⟨hy, hys⟩
      rw [insertByUpdateDesc_cons]
      by_cases hc : y.last_update ≤ x.last_update
      · rw [if_pos hc]
        refine List.pairwise_cons.mpr ⟨?_, h⟩
        intro b hb
        rcases List.mem_cons.mp hb with hb | hb
        · exact hb ▸ hc
        · exact le_trans (hy b hb) hc
      · rw [if_neg hc]
        refine List.pairwise_cons.mpr ⟨?_, ih hys⟩
        intro b hb
        rcases mem_insertByUpdateDesc.mp hb with hb | hb
        · exact hb ▸ le_of_lt (lt_of_not_le hc)
        · exact hy b hb

theorem sortedDesc_jsSortNotes (l : List Note) : SortedByUpdateDesc (jsSortNotes l) := by
  induction l with
  | nil => simp [jsSortNotes, SortedByUpdateDesc]
  | cons x xs ih => exact sortedDesc_insertByUpdateDesc x ih

theorem filter_insertByUpdateDesc (x : Note) (l : List Note) (k : Int) :
    (insertByUpdateDesc x l).filter (fun n => n.last_update == k)
      = if x.last_update = k
        then x :: l.filter (fun n => n.last_update == k)
        else l.filter (fun n => n.last_update == k) := by
  induction l with
  | nil =>
      by_cases hx : x.last_update = k <;>
        simp [insertByUpdateDesc, List.filter_cons, hx]
  | cons y ys ih =>
      rw [insertByUpdateDesc_cons]
      by_cases hc : y.last_update ≤ x.last_update
      · rw [if_pos hc]
        by_cases hx : x.last_update = k <;>
          simp [List.filter_cons, hx]
      · rw [if_neg hc]
        by_cases hx : x.last_update = k
        · by_cases hy : y.last_update = k
          · exact absurd (hy.trans hx.symm).le hc
          · simp [List.filter_cons, ih, hx, hy]
        · by_cases hy : y.last_update = k <;>
            simp [List.filter_cons, ih, hx, hy]

theorem filter_jsSortNotes (l : List Note) (k : Int) :
    (jsSortNotes l).filter (fun n => n.last_update == k)
      = l.filter (fun n => n.last_update == k) := by
  induction l with
  | nil => simp [jsSortNotes]
  | cons x xs ih =>
      show (insertByUpdateDesc x (jsSortNotes xs)).filter (fun n => n.last_update == k) = _
      rw [filter_insertByUpdateDesc]
      by_cases hx : x.last_update = k <;>
        simp [List.filter_cons, hx, ih]

/-- Claim C3: after every successful `refresh()`, the published note list is
the fetched list sorted by `last_update` descending (every element of the
published list is `≥` all later ones), and notes with identical `last_update`
keep the backend-provided relative order: filtering the published list by any
timestamp gives exactly the filter of the fetched list. -/
theorem fetchNotes_publishes_sorted_stable (b : NotesBackend) (s : Storage)
    (u : User) (h : HomeState) (hok : b.notesResp.ok = true) :
    (fetchNotes b s (some u) h).2.notes
        = jsSortNotes (b.notesResp.data.map normalizeNote) ∧
    SortedByUpdateDesc (fetchNotes b s (some u) h).2.notes ∧
    ∀ k : Int,
      ((fetchNotes b s (some u) h).2.notes).filter (fun n => n.last_update == k)
        = (b.notesResp.data.map normalizeNote).filter (fun n => n.last_update == k) := by
  have hpub : (fetchNotes b s (some u) h).2.notes
      = jsSortNotes (b.notesResp.data.map normalizeNote) := by
    simp [fetchNotes, apiGetNotesForUser, handleResponse, hok]
  refine ⟨hpub, ?_, ?_⟩
  · rw [hpub]; exact sortedDesc_jsSortNotes _
  · intro k; rw [hpub]; exact filter_jsSortNotes _ k

/-- Witness for C3 at a concrete backend whose note list has a timestamp tie. -/
theorem fetchNotes_publishes_sorted_stable_witness :
    sampleNotesBackend.notesResp.ok = true ∧
    ((fetchNotes sampleNotesBackend tokenStorage (some sampleUser) sampleHome).2.notes
        = jsSortNotes (sampleNotesBackend.notesResp.data.map normalizeNote) ∧
     SortedByUpdateDesc
       (fetchNotes sampleNotesBackend tokenStorage (some sampleUser) sampleHome).2.notes ∧
     ∀ k : Int,
       ((fetchNotes sampleNotesBackend tokenStorage (some sampleUser) sampleHome).2.notes).filter
           (fun n => n.last_update == k)
         = (sampleNotesBackend.notesResp.data.map normalizeNote).filter
             (fun n => n.last_update == k)) :=
  ⟨rfl, fetchNotes_publishes_sorted_stable sampleNotesBackend tokenStorage sampleUser
    sampleHome rfl⟩

/-- Claim C9: `refresh()` is idempotent — with an authenticated user and the
backend returning the same data, running `fetchNotes` twice in succession
leaves exactly the state one run leaves (in particular the same ordered note
list). -/
theorem fetchNotes_idempotent (b : NotesBackend) (s : Storage) (u : User)
    (h : HomeState) :
    (fetchNotes b s (some u) (fetchNotes b s (some u) h).2).2
      = (fetchNotes b s (some u) h).2 := by
  cases hok : b.notesResp.ok <;>
    simp [fetchNotes, apiGetNotesForUser, handleResponse, hok]

/-- Claim C7: a `refresh()` with no authenticated user is a no-op that issues
no request and changes nothing; a `refresh()` whose fetch fails sets the
visible error message and leaves the previously published note list
untouched. -/
theorem fetchNotes_guard_and_failure (b : NotesBackend) (s : Storage) (u : User)
    (h : HomeState) (hfail : b.notesResp.ok = false) :
    fetchNotes b s none h = ([], h) ∧
    (fetchNotes b s (some u) h).2.notes = h.notes ∧
    (fetchNotes b s (some u) h).2.error = some "Failed to fetch notes." := by
  refine ⟨rfl, ?_, ?_⟩ <;>
    simp [fetchNotes, apiGetNotesForUser, handleResponse, hfail]

/-- Witness for C7 at a backend whose notes fetch fails. -/
theorem fetchNotes_guard_and_failure_witness :
    failingNotesBackend.notesResp.ok = false ∧
    (fetchNotes failingNotesBackend tokenStorage none sampleHome = ([], sampleHome) ∧
     (fetchNotes failingNotesBackend tokenStorage (some sampleUser) sampleHome).2.notes
        = sampleHome.notes ∧
     (fetchNotes failingNotesBackend tokenStorage (some sampleUser) sampleHome).2.error
        = some "Failed to fetch notes.") :=
  ⟨rfl, fetchNotes_guard_and_failure failingNotesBackend tokenStorage sampleUser
    sampleHome rfl⟩

/-- Claim C4 counterexample: on a 404 whose body is unparseable, the failure
message is the fixed string `'An unknown error occurred.'` — injected by the
`.catch` before the `||` fallback — not the generic `HTTP error` message
containing the status code that the claim requires for this case. -/
theorem handleResponse_unparseable_not_generic :
    handleResponse unparseable404 = Except.error "An unknown error occurred." ∧
    "An unknown error occurred." ≠ "HTTP error! status: 404" := by
  exact ⟨rfl, by decide⟩

/-- Claim C4 (amended): on a non-2xx response the failure message is the
parsed truthy `detail` when one is present; when the body is absent or
unparseable it is the fixed string `'An unknown error occurred.'`; the
generic `'HTTP error! status: <code>'` message appears exactly when the body
parses as JSON but carries no truthy `detail` field. -/
theorem handleResponse_error_message_amended (α : Type) (r : Response α)
    (hok : r.ok = false) :
    (∀ d, d ≠ "" → r.errBody = .parsed (some d) →
        handleResponse r = Except.error d) ∧
    (r.errBody = .unparseable →
        handleResponse r = Except.error "An unknown error occurred.") ∧
    (r.errBody = .parsed none →
        handleResponse r = Except.error ("HTTP error! status: " ++ toString r.status)) ∧
    (r.errBody = .parsed (some "") →
        handleResponse r = Except.error ("HTTP error! status: " ++ toString r.status)) := by
  refine ⟨?_, ?_, ?_, ?_⟩
  · intro d hd hbody
    simp [handleResponse, errorMessage, hok, hbody, hd]
  · intro hbody
    simp [handleResponse, errorMessage, hok, hbody]
  · intro hbody
    simp [handleResponse, errorMessage, hok, hbody]
  · intro hbody
    simp [handleResponse, errorMessage, hok, hbody]

/-- Witness for the amended C4 at a concrete 400 with a structured detail. -/
theorem handleResponse_error_message_amended_witness :
    detail400.ok = false ∧
    ((∀ d, d ≠ "" → detail400.errBody = .parsed (some d) →
        handleResponse detail400 = Except.error d) ∧
     (detail400.errBody = .unparseable →
        handleResponse detail400 = Except.error "An unknown error occurred.") ∧
     (detail400.errBody = .parsed none →
        handleResponse detail400
          = Except.error ("HTTP error! status: " ++ toString detail400.status)) ∧
     (detail400.errBody = .parsed (some "") →
        handleResponse detail400
          = Except.error ("HTTP error! status: " ++ toString detail400.status))) :=
  ⟨rfl, handleResponse_error_message_amended Unit detail400 rfl⟩

/-- Claim C1 counterexample: with a backend whose `/login` succeeds but whose
`/users/me` fails, `api.login` from the empty storage propagates the error,
yet the persisted storage has changed — the new token was written before the
failing `getMe` step. -/
theorem login_failure_commits_token :
    (authLogin meFailsAuthBackend idleAuthState freshStoreM
        "alice@example.com" "pw").result
      = Except.error "Could not validate credentials" ∧
    (authLogin meFailsAuthBackend idleAuthState freshStoreM
        "alice@example.com" "pw").storeM.store ≠ freshStoreM.store := by
  exact ⟨rfl, by decide⟩

/-- Claim C1 (amended): every failing `login`/`signup` call propagates the
error, leaves the in-memory user/token and the persisted user entry
unchanged, and fails either in a request step or in the follow-up `getMe`
step; whenever the `/login` request itself fails (for signup: the `/signup`
or the inner `/login` request) the storage is entirely unchanged, and
whenever those requests succeed but the `getMe` step fails the call fails
with the new access token already persisted. -/
theorem auth_failure_partial_state_amended (b : AuthBackend) (st : AuthState)
    (m : StoreM) (username email password : String) :
    (∀ e, (authLogin b st m email password).result = Except.error e →
        (authLogin b st m email password).state = st ∧
        (authLogin b st m email password).storeM.store.user = m.store.user ∧
        (b.loginResp.ok = false ∨ b.meResp.ok = false)) ∧
    (b.loginResp.ok = false →
        (∃ e, (authLogin b st m email password).result = Except.error e) ∧
        (authLogin b st m email password).storeM = m) ∧
    (b.loginResp.ok = true → b.meResp.ok = false →
        (∃ e, (authLogin b st m email password).result = Except.error e) ∧
        (authLogin b st m email password).storeM.store
          = { m.store with token := some b.loginResp.data.access_token }) ∧
    (∀ e, (authSignup b st m username email password).result = Except.error e →
        (authSignup b st m username email password).state = st ∧
        (authSignup b st m username email password).storeM.store.user = m.store.user ∧
        (b.signupResp.ok = false ∨ b.loginResp.ok = false ∨ b.meResp.ok = false)) ∧
    (b.signupResp.ok = false ∨ b.loginResp.ok = false →
        (∃ e, (authSignup b st m username email password).result = Except.error e) ∧
        (authSignup b st m username email password).storeM = m) ∧
    (b.signupResp.ok = true → b.loginResp.ok = true → b.meResp.ok = false →
        (∃ e, (authSignup b st m username email password).result = Except.error e) ∧
        (authSignup b st m username email password).storeM.store
          = { m.store with token := some b.loginResp.data.access_token }) := by
  cases hs : b.signupResp.ok <;> cases hl : b.loginResp.ok <;> cases hme : b.meResp.ok <;>
    simp [authLogin, authSignup, apiLogin, apiSignup, apiGetMe, handleResponse,
      StoreM.setTokenItem, StoreM.setUserItem, hs, hl, hme]

/-- Witness for the amended C1 exercising both failing cases: a backend whose
`/login` request fails leaves the storage run untouched, and a backend whose
`getMe` step fails leaves the new token persisted. -/
theorem auth_failure_partial_state_amended_witness :
    ((∃ e, (authLogin loginFailsAuthBackend idleAuthState freshStoreM
        "alice@example.com" "pw").result = Except.error e) ∧
     (authLogin loginFailsAuthBackend idleAuthState freshStoreM
        "alice@example.com" "pw").storeM = freshStoreM) ∧
    ((∃ e, (authLogin meFailsAuthBackend idleAuthState freshStoreM
        "alice@example.com" "pw").result = Except.error e) ∧
     (authLogin meFailsAuthBackend idleAuthState freshStoreM
        "alice@example.com" "pw").storeM.store
       = { freshStoreM.store with
             token := some meFailsAuthBackend.loginResp.data.access_token }) :=
  ⟨(auth_failure_partial_state_amended loginFailsAuthBackend idleAuthState
      freshStoreM "alice" "alice@example.com" "pw").2.1 rfl,
   (auth_failure_partial_state_amended meFailsAuthBackend idleAuthState
      freshStoreM "alice" "alice@example.com" "pw").2.2.1 rfl rfl⟩

/-- Claim C2: on startup with a persisted token whose validation fails, both
persisted entries are cleared, the system ends unauthenticated (no in-memory
user or token), and the loading flag resolves to `false` — on every startup
path, for any backend. -/
theorem initAuth_failure_clears_session (b : AuthBackend) (m : StoreM)
    (tok : String) (htok : m.store.token = some tok)
    (hfail : b.meResp.ok = false) :
    (initAuth b startAuthState m).2.store = ⟨none, none⟩ ∧
    (initAuth b startAuthState m).1.user = none ∧
    (initAuth b startAuthState m).1.token = none ∧
    (initAuth b startAuthState m).1.isLoading = false ∧
    (∀ (b' : AuthBackend) (st : AuthState) (m' : StoreM),
        ((initAuth b' st m').1).isLoading = false) := by
  refine ⟨?_, ?_, ?_, ?_, ?_⟩
  · simp [initAuth, htok, apiGetMe, handleResponse, hfail,
      StoreM.removeUserItem, StoreM.removeTokenItem]
  · simp [initAuth, htok, apiGetMe, handleResponse, hfail, startAuthState]
  · simp [initAuth, htok, apiGetMe, handleResponse, hfail, startAuthState]
  · simp [initAuth, htok, apiGetMe, handleResponse, hfail]
  · intro b' st m'
    cases htok' : m'.store.token <;> cases hok : b'.meResp.ok <;>
      simp [initAuth, htok', apiGetMe, handleResponse, hok]

/-- Witness for C2 at the failing-`getMe` backend over a stored token. -/
theorem initAuth_failure_clears_session_witness :
    tokenStoreM.store.token = some "tok123" ∧
    meFailsAuthBackend.meResp.ok = false ∧
    ((initAuth meFailsAuthBackend startAuthState tokenStoreM).2.store = ⟨none, none⟩ ∧
     (initAuth meFailsAuthBackend startAuthState tokenStoreM).1.user = none ∧
     (initAuth meFailsAuthBackend startAuthState tokenStoreM).1.token = none ∧
     (initAuth meFailsAuthBackend startAuthState tokenStoreM).1.isLoading = false ∧
     (∀ (b' : AuthBackend) (st : AuthState) (m' : StoreM),
        ((initAuth b' st m').1).isLoading = false)) :=
  ⟨rfl, rfl,
   initAuth_failure_clears_session meFailsAuthBackend tokenStoreM "tok123" rfl rfl⟩

/-- Claim C8: the persisted-session invariant "user entry present implies
token entry present" (equivalently, token absent implies user absent) holds
at every observable point — every storage state journalled after a mutation —
of `login`, `signup`, `logout` and startup validation, whenever it holds
initially and the run starts with an empty journal. -/
theorem session_invariant_preserved (b : AuthBackend) (st : AuthState)
    (m : StoreM) (username email password : String)
    (hj : m.journal = []) (_hinv : sessionInvariant m.store) :
    (∀ x ∈ (authLogin b st m email password).storeM.journal, sessionInvariant x) ∧
    (∀ x ∈ (authSignup b st m username email password).storeM.journal,
        sessionInvariant x) ∧
    (∀ x ∈ (logout st m).2.journal, sessionInvariant x) ∧
    (∀ x ∈ (initAuth b st m).2.journal, sessionInvariant x) := by
  refine ⟨?_, ?_, ?_, ?_⟩
  · cases hl : b.loginResp.ok <;> cases hme : b.meResp.ok <;>
      simp [authLogin, apiLogin, apiGetMe, handleResponse, hl, hme, hj,
        StoreM.setTokenItem, StoreM.setUserItem, sessionInvariant]
  · cases hs : b.signupResp.ok <;> cases hl : b.loginResp.ok <;>
      cases hme : b.meResp.ok <;>
        simp [authSignup, apiSignup, authLogin, apiLogin, apiGetMe, handleResponse,
          hs, hl, hme, hj, StoreM.setTokenItem, StoreM.setUserItem, sessionInvariant]
  · simp [logout, hj, StoreM.removeUserItem, StoreM.removeTokenItem, sessionInvariant]
  · cases htok : m.store.token <;> cases hme : b.meResp.ok <;>
      simp [initAuth, htok, apiGetMe, handleResponse, hme, hj,
        StoreM.setUserItem, StoreM.removeUserItem, StoreM.removeTokenItem,
        sessionInvariant]

/-- Witness for C8 on a fresh run over storage holding only a token. -/
theorem session_invariant_preserved_witness :
    tokenStoreM.journal = [] ∧ sessionInvariant tokenStoreM.store ∧
    ((∀ x ∈ (authLogin meFailsAuthBackend idleAuthState tokenStoreM
        "alice@example.com" "pw").storeM.journal, sessionInvariant x) ∧
     (∀ x ∈ (authSignup meFailsAuthBackend idleAuthState tokenStoreM
        "alice" "alice@example.com" "pw").storeM.journal, sessionInvariant x) ∧
     (∀ x ∈ (logout idleAuthState tokenStoreM).2.journal, sessionInvariant x) ∧
     (∀ x ∈ (initAuth meFailsAuthBackend idleAuthState tokenStoreM).2.journal,
        sessionInvariant x)) :=
  ⟨rfl, by decide,
   session_invariant_preserved meFailsAuthBackend idleAuthState tokenStoreM
     "alice" "alice@example.com" "pw" rfl (by decide)⟩

/-- Claim C10: with no token in the session store, every authenticated
endpoint still issues its request but with no `Authorization` header at all
(for `getMe`, `getNotesForUser` and `deleteNote` the header set is empty; for
`createNote` and `updateNote` only the content type remains), and the client
reports the backend's resulting error rather than failing fast locally. -/
theorem no_token_requests_without_auth_header (b : AuthBackend)
    (nb : NotesBackend) (s : Storage) (noteId title content : String)
    (htok : s.token = none) :
    (apiGetMe b s).1.headers = [] ∧
    (apiGetMe b s).2 = handleResponse b.meResp ∧
    (apiGetNotesForUser nb s).1.headers = [] ∧
    (∀ e, handleResponse nb.notesResp = Except.error e →
        (apiGetNotesForUser nb s).2 = Except.error e) ∧
    (apiCreateNote nb s title content).1.headers
        = [("Content-Type", "application/json")] ∧
    (apiCreateNote nb s title content).2 = handleResponse nb.createResp ∧
    (apiUpdateNote nb s noteId title content).1.headers
        = [("Content-Type", "application/json")] ∧
    (apiUpdateNote nb s noteId title content).2 = handleResponse nb.updateResp ∧
    (apiDeleteNote nb s noteId).1.headers = [] ∧
    (apiDeleteNote nb s noteId).2 = handleResponse nb.deleteResp := by
  refine ⟨?_, rfl, ?_, ?_, ?_, rfl, ?_, rfl, ?_, rfl⟩ <;>
    simp [apiGetMe, apiGetNotesForUser, apiCreateNote, apiUpdateNote,
      apiDeleteNote, getAuthHeaders, htok]
  intro e he
  simp [he]

/-- Witness for C10 over the empty storage. -/
theorem no_token_requests_without_auth_header_witness :
    emptyStorage.token = none ∧
    ((apiGetMe meFailsAuthBackend emptyStorage).1.headers = [] ∧
     (apiGetMe meFailsAuthBackend emptyStorage).2
        = handleResponse meFailsAuthBackend.meResp ∧
     (apiGetNotesForUser failingNotesBackend emptyStorage).1.headers = [] ∧
     (∀ e, handleResponse failingNotesBackend.notesResp = Except.error e →
        (apiGetNotesForUser failingNotesBackend emptyStorage).2 = Except.error e) ∧
     (apiCreateNote failingNotesBackend emptyStorage "t" "c").1.headers
        = [("Content-Type", "application/json")] ∧
     (apiCreateNote failingNotesBackend emptyStorage "t" "c").2
        = handleResponse failingNotesBackend.createResp ∧
     (apiUpdateNote failingNotesBackend emptyStorage "a" "t" "c").1.headers
        = [("Content-Type", "application/json")] ∧
     (apiUpdateNote failingNotesBackend emptyStorage "a" "t" "c").2
        = handleResponse failingNotesBackend.updateResp ∧
     (apiDeleteNote failingNotesBackend emptyStorage "a").1.headers = [] ∧
     (apiDeleteNote failingNotesBackend emptyStorage "a").2
        = handleResponse failingNotesBackend.deleteResp) :=
  ⟨rfl, no_token_requests_without_auth_header meFailsAuthBackend
    failingNotesBackend emptyStorage "a" "t" "c" rfl⟩

/-- Claim C5: a DELETE request reaches the backend only after both
confirmations (modal, then page) were accepted; if either is declined, zero
requests are fired at all and both the page state and the modal state are
exactly as before. -/
theorem delete_confirmation_gate (b : NotesBackend) (s : Storage)
    (user : Option User) (h : HomeState) (m : ModalState)
    (confirmModal confirmPage : Bool) (hm : m.isDeleting = false) :
    (deleteRequestCount
        (modalHandleDelete b s user h m confirmModal confirmPage).1.requests ≠ 0 →
      confirmModal = true ∧ confirmPage = true) ∧
    (confirmModal = false ∨ confirmPage = false →
      (modalHandleDelete b s user h m confirmModal confirmPage).1.requests = [] ∧
      (modalHandleDelete b s user h m confirmModal confirmPage).1.state = h ∧
      (modalHandleDelete b s user h m confirmModal confirmPage).2 = m) := by
  obtain ⟨mt, mc, ms, md⟩ := m
  simp only at hm
  subst hm
  cases hedit : h.editingNote <;> cases confirmModal <;> cases confirmPage <;>
    simp [modalHandleDelete, handleDeleteNote, hedit, deleteRequestCount]

/-- Witness for C5: the modal confirmation declined on a state editing a
note. -/
theorem delete_confirmation_gate_witness :
    idleModal.isDeleting = false ∧
    ((deleteRequestCount
        (modalHandleDelete sampleNotesBackend tokenStorage (some sampleUser)
          sampleHome idleModal false true).1.requests ≠ 0 →
      false = true ∧ true = true) ∧
     (false = false ∨ true = false →
      (modalHandleDelete sampleNotesBackend tokenStorage (some sampleUser)
          sampleHome idleModal false true).1.requests = [] ∧
      (modalHandleDelete sampleNotesBackend tokenStorage (some sampleUser)
          sampleHome idleModal false true).1.state = sampleHome ∧
      (modalHandleDelete sampleNotesBackend tokenStorage (some sampleUser)
          sampleHome idleModal false true).2 = idleModal)) := by
  exact ⟨rfl, delete_confirmation_gate sampleNotesBackend tokenStorage
    (some sampleUser) sampleHome idleModal false true rfl⟩

/-- Claim C6: in the save flow, a failing create/update leaves the page state
(including the published note list) completely unchanged, shows exactly the
generic `'Failed to save note.'` notice, and leaves the modal (with its
entered data) as it was; a successful mutation triggers a full refresh and
closes the edit surface, the list becoming the freshly fetched sorted list
when the refresh succeeds and staying unchanged when it fails. -/
theorem save_flow_frame (b : NotesBackend) (s : Storage) (u : User)
    (h : HomeState) (m : ModalState) (hm : m.isSaving = false) :
    ((match h.editingNote with
      | some _ => b.updateResp.ok
      | none => b.createResp.ok) = false →
        (modalHandleSave b s (some u) h m).1.state = h ∧
        (modalHandleSave b s (some u) h m).1.alerts = ["Failed to save note."] ∧
        (modalHandleSave b s (some u) h m).2 = m) ∧
    ((match h.editingNote with
      | some _ => b.updateResp.ok
      | none => b.createResp.ok) = true →
        (modalHandleSave b s (some u) h m).1.state.isModalOpen = false ∧
        (modalHandleSave b s (some u) h m).1.state.editingNote = none ∧
        (modalHandleSave b s (some u) h m).1.alerts = [] ∧
        (b.notesResp.ok = true →
          (modalHandleSave b s (some u) h m).1.state.notes
            = jsSortNotes (b.notesResp.data.map normalizeNote)) ∧
        (b.notesResp.ok = false →
          (modalHandleSave b s (some u) h m).1.state.notes = h.notes)) := by
  obtain ⟨mt, mc, ms, md⟩ := m
  simp only at hm
  subst hm
  cases hedit : h.editingNote <;>
    cases hup : b.updateResp.ok <;> cases hcr : b.createResp.ok <;>
      cases hn : b.notesResp.ok <;>
        simp [modalHandleSave, handleSaveNote, fetchNotes, apiGetNotesForUser,
          apiCreateNote, apiUpdateNote, handleResponse, closeModal, hedit, hup,
          hcr, hn]

/-- Witness for C6 at a backend whose update endpoint fails while a note is
being edited. -/
theorem save_flow_frame_witness :
    idleModal.isSaving = false ∧
    (((match sampleHome.editingNote with
       | some _ => failingNotesBackend.updateResp.ok
       | none => failingNotesBackend.createResp.ok) = false →
        (modalHandleSave failingNotesBackend tokenStorage (some sampleUser)
            sampleHome idleModal).1.state = sampleHome ∧
        (modalHandleSave failingNotesBackend tokenStorage (some sampleUser)
            sampleHome idleModal).1.alerts = ["Failed to save note."] ∧
        (modalHandleSave failingNotesBackend tokenStorage (some sampleUser)
            sampleHome idleModal).2 = idleModal) ∧
     ((match sampleHome.editingNote with
       | some _ => failingNotesBackend.updateResp.ok
       | none => failingNotesBackend.createResp.ok) = true →
        (modalHandleSave failingNotesBackend tokenStorage (some sampleUser)
            sampleHome idleModal).1.state.isModalOpen = false ∧
        (modalHandleSave failingNotesBackend tokenStorage (some sampleUser)
            sampleHome idleModal).1.state.editingNote = none ∧
        (modalHandleSave failingNotesBackend tokenStorage (some sampleUser)
            sampleHome idleModal).1.alerts = [] ∧
        (failingNotesBackend.notesResp.ok = true →
          (modalHandleSave failingNotesBackend tokenStorage (some sampleUser)
              sampleHome idleModal).1.state.notes
            = jsSortNotes (failingNotesBackend.notesResp.data.map normalizeNote)) ∧
        (failingNotesBackend.notesResp.ok = false →
          (modalHandleSave failingNotesBackend tokenStorage (some sampleUser)
              sampleHome idleModal).1.state.notes = sampleHome.notes))) :=
  ⟨rfl, save_flow_frame failingNotesBackend tokenStorage sampleUser sampleHome
    idleModal rfl⟩

end NotesApp
